import Mathlib

/-!
Verification of the FRA report generator's core (ArcGIS paginated retry
client, hierarchical AOI resolver, indicator derivation) against its
natural-language specification.  The definitions below are a shallow
embedding of `app/arcgis.py`, `app/layers.py`, `app/indicators.py` and
`app/config.py`:

* machine floats become `ℚ` (the code performs only comparisons, sums,
  divisions and two-decimal rounding on them);
* Python `Optional` values become `Option`; Python truthiness on strings
  and numbers is modelled explicitly (`truthyStr`, `truthyQ`);
* raised exceptions become `Except.error` / `none` results;
* network I/O is abstracted by explicit query-function parameters, and the
  shapely centroid computation (an external library call) by an explicit
  centroid-function parameter;
* attribute values of features are modelled as strings where the code only
  compares, copies or stringifies them, and as `ℚ` in the numeric
  indicator derivations.
-/

/-- The single-quote character (used to build SQL-style predicates). -/
def sqc : Char := Char.ofNat 39

/-- The single-quote character as a one-character string. -/
def sqs : String := String.singleton sqc

/-- Python truthiness of an optional string (`None` and `""` are falsy). -/
def truthyStr (o : Option String) : Bool :=
  match o with
  | some s => s ≠ ""
  | none => false

/-- Python `a or b` on optional strings. -/
def pyOrStr (a b : Option String) : Option String :=
  if truthyStr a then a else b

/-- Python truthiness of an optional number (`None` and `0` are falsy). -/
def truthyQ (o : Option ℚ) : Bool :=
  match o with
  | some v => v ≠ 0
  | none => false

/-- Round a rational to the nearest integer, ties to even
(Python's `round` uses banker's rounding). -/
def roundHalfToEven (q : ℚ) : ℤ :=
  let f := ⌊q⌋
  if q - f < 1/2 then f
  else if 1/2 < q - f then f + 1
  else if f % 2 = 0 then f else f + 1

/-- Python `round(q, 2)`. -/
def pyRound2 (q : ℚ) : ℚ := (roundHalfToEven (q * 100) : ℚ) / 100

/-!  ### ArcGIS client (`app/arcgis.py`)  -/

/-- One page of an ArcGIS query response: the `features` array and the
`exceededTransferLimit` truncation flag (`page.get("exceededTransferLimit",
False)`). -/
structure FeaturePage (α : Type) where
  features : List α
  exceededTransferLimit : Bool

/-- The pagination loop of `ArcGISClient.query`: starting at `offset`, fetch
the page at the current offset, append its features, stop when the service
reports no further truncation pending or the page is empty, otherwise
advance the offset by the number of features received.  `server` maps an
offset to the page the service returns for it; `fuel` bounds the number of
round trips (the Python loop is `while True`, so an adversarial server could
loop forever; `none` models non-termination within `fuel` requests).  The
returned number counts the round trips made. -/
def queryPages {α : Type} (server : Nat → FeaturePage α) :
    Nat → Nat → List α → Option (List α × Nat)
  | 0, _, _ => none
  | fuel + 1, offset, acc =>
    let page := server offset
    let items := acc ++ page.features
    if !page.exceededTransferLimit || page.features.isEmpty then
      some (items, 1)
    else
      match queryPages server fuel (offset + page.features.length) items with
      | some (res, n) => some (res, n + 1)
      | none => none

/-- An honest feature service holding `feats`, serving pages of at most
`pageSize` records: the page at `offset` is `feats[offset : offset+pageSize]`
and the truncation flag is set exactly when records remain beyond it. -/
def honestServer {α : Type} (feats : List α) (pageSize : Nat) (offset : Nat) :
    FeaturePage α :=
  { features := (feats.drop offset).take pageSize
    exceededTransferLimit := decide (offset + pageSize < feats.length) }

/-- `ArcGISClient.query` against an honest service: pagination from offset 0
with an empty accumulator and enough fuel for any total count. -/
def queryRun {α : Type} (feats : List α) (pageSize : Nat) :
    Option (List α × Nat) :=
  queryPages (honestServer feats pageSize) (feats.length + 1) 0 []

/-- An HTTP response as `_request` inspects it: status code and whether the
JSON body contains an `"error"` key (`bodyHasError`); `body` abstracts the
decoded payload. -/
structure HttpResponse where
  status : Nat
  bodyHasError : Bool
  body : Nat

/-- The retryable statuses of `_request`: `{429, 500, 502, 503, 504}`. -/
def transientStatus (s : Nat) : Bool :=
  s == 429 || s == 500 || s == 502 || s == 503 || s == 504

/-- Outcome of `_request`: a parsed payload, an HTTP transport failure
(`raise_for_status`), or a service-level `ArcGISError` (embedded error
payload in a successful response). -/
inductive ReqOutcome where
  | success (body : Nat)
  | httpFailure (status : Nat)
  | serviceFailure
  deriving DecidableEq, Repr

/-- The retry loop of `ArcGISClient._request`, starting at the 1-based
attempt number `attempt`.  `resp n` is the response received by the n-th
attempt.  Returns the outcome, the number of HTTP attempts made from this
point on, and the list of attempt numbers after which a backoff sleep was
performed.  Mirrors the source: a transient status within the retry budget
sleeps and retries; a transient status past the budget, or any other error
status, surfaces the transport error; a success status with an embedded
error payload raises `ArcGISError`; otherwise the payload is returned. -/
def requestGo (resp : Nat → HttpResponse) (maxRetries : Nat) (attempt : Nat) :
    ReqOutcome × Nat × List Nat :=
  let r := resp attempt
  if transientStatus r.status then
    if maxRetries < attempt then (ReqOutcome.httpFailure r.status, 1, [])
    else
      let rest := requestGo resp maxRetries (attempt + 1)
      (rest.1, rest.2.1 + 1, attempt :: rest.2.2)
  else if 400 ≤ r.status then (ReqOutcome.httpFailure r.status, 1, [])
  else if r.bodyHasError then (ReqOutcome.serviceFailure, 1, [])
  else (ReqOutcome.success r.body, 1, [])
termination_by maxRetries + 1 - attempt
decreasing_by omega

/-- `ArcGISClient._request`: the retry loop entered at attempt 1. -/
def requestRun (resp : Nat → HttpResponse) (maxRetries : Nat) :
    ReqOutcome × Nat × List Nat :=
  requestGo resp maxRetries 1

/-- The delay slept by `ArcGISClient._sleep(attempt)`:
`base = backoff_factor * 2**(attempt-1)` plus `random.uniform(0, base/2)`,
the latter modelled as `base/2 * r` with `r` ranging over `[0, 1)`
(`random.uniform(0, x) = x * random()`). -/
def sleep_delay (backoff_factor : ℚ) (attempt : Nat) (r : ℚ) : ℚ :=
  let base := backoff_factor * 2 ^ (attempt - 1)
  base + base / 2 * r

/-!  ### Configuration (`app/config.py`)  -/

/-- The environment-driven settings, with the defaults from `Settings`. -/
structure Settings where
  use_vertex : Bool := false
  arcgis_token : Option String := none
  gw_stress_threshold_m : ℚ := 10
  nearest_poi_radius_m : ℚ := 50000
  stub_mode : Bool := false

/-- A settings instance with every field at its default. -/
def defaultSettings : Settings := {}

/-!  ### Layer registry (`app/layers.py`)  -/

/-- Definition for a feature layer used by the report generator. -/
structure Layer where
  name : String
  url : String
  fields : List String
  state_field : Option String := none
  district_field : Option String := none
  name_field : Option String := none
  parent_field : Option String := none
  code_field : Option String := none
  value_field : Option String := none

/-- `STATE_NAME_MAPPING`: full state name to two-letter abbreviation. -/
def STATE_NAME_MAPPING : List (String × String) :=
  [("Andaman and Nicobar Islands", "AN"),
   ("Andhra Pradesh", "AP"),
   ("Arunachal Pradesh", "AR"),
   ("Assam", "AS"),
   ("Bihar", "BR"),
   ("Chandigarh", "CH"),
   ("Chhattisgarh", "CT"),
   ("Dadra and Nagar Haveli and Daman and Diu", "DN"),
   ("Delhi", "DL"),
   ("Goa", "GA"),
   ("Gujarat", "GJ"),
   ("Haryana", "HR"),
   ("Himachal Pradesh", "HP"),
   ("Jammu and Kashmir", "JK"),
   ("Jharkhand", "JH"),
   ("Karnataka", "KA"),
   ("Kerala", "KL"),
   ("Ladakh", "LA"),
   ("Lakshadweep", "LD"),
   ("Madhya Pradesh", "MP"),
   ("Maharashtra", "MH"),
   ("Manipur", "MN"),
   ("Meghalaya", "ML"),
   ("Mizoram", "MZ"),
   ("Nagaland", "NL"),
   ("Odisha", "OR"),
   ("Puducherry", "PY"),
   ("Punjab", "PB"),
   ("Rajasthan", "RJ"),
   ("Sikkim", "SK"),
   ("Tamil Nadu", "TN"),
   ("Telangana", "TG"),
   ("Tripura", "TR"),
   ("Uttar Pradesh", "UP"),
   ("Uttarakhand", "UT"),
   ("West Bengal", "WB")]

/-- `STATE_ABBREV_TO_FULL`: the reverse of `STATE_NAME_MAPPING`. -/
def STATE_ABBREV_TO_FULL : List (String × String) :=
  STATE_NAME_MAPPING.map (fun p => (p.2, p.1))

/-- `get_state_abbreviation`: full name → abbreviation (case-sensitive). -/
def get_state_abbreviation (full_name : String) : Option String :=
  STATE_NAME_MAPPING.lookup full_name

/-- `get_state_full_name`: abbreviation (upper-cased first) → full name. -/
def get_state_full_name (abbreviation : String) : Option String :=
  STATE_ABBREV_TO_FULL.lookup abbreviation.toUpper

/-- The `state` AOI layer. -/
def stateLayer : Layer :=
  { name := "state"
    url := "https://services5.arcgis.com/73n8CSGpSSyHr1T9/arcgis/rest/services/state_boundary/FeatureServer/0"
    fields := ["FID", "shape_leng", "State_Name", "State_Cens", "State_FSI",
               "GA_sqkm", "VDF2019", "MDF2019", "OF2019", "Forest_201",
               "Per_GA_201", "Forest_200", "Ch_wrt2017", "Ch_per", "Scrub2019",
               "TC2019", "Fcount_RFA", "Extent_TOF", "Per_FTC_St", "Per_GA_Sta",
               "RFA_GW_as_", "nfa_orfa", "F_FC_Outsid", "st_area_sh",
               "st_length_", "Shape__Area", "Shape__Length", "GlobalID",
               "geometry"]
    name_field := some "State_FSI"
    state_field := some "State_FSI"
    code_field := some "State_Cens" }

/-- The `district` AOI layer. -/
def districtLayer : Layer :=
  { name := "district"
    url := "https://services5.arcgis.com/73n8CSGpSSyHr1T9/arcgis/rest/services/district_boundary/FeatureServer/0"
    fields := ["FID", "District", "State", "Annual_Gro", "Annual_G00",
               "Annual_Rep", "Natural_Di", "Projected_", "Ground_Wat",
               "Net_Ground", "Annual_Dra", "Stage_of_d", "st_area_sh",
               "st_length_", "Shape__Area", "Shape__Length", "GlobalID",
               "geometry"]
    name_field := some "District"
    state_field := some "State" }

/-- The `village` AOI layer. -/
def villageLayer : Layer :=
  { name := "village"
    url := "https://livingatlas.esri.in/server/rest/services/IAB2024/IAB_Village_2024/MapServer/0"
    fields := ["objectid", "id", "name", "subdistrict", "District", "State",
               "country", "censusname", "villagename_locallang",
               "lgd_villagename", "lgd_villagecode", "lgd_subdistrictcode",
               "lgd_districtcode", "lgd_statecode", "censuscode2001",
               "censuscode2011", "censuscode2021", "level_2011", "tru_2011",
               "shape"]
    name_field := some "name"
    parent_field := some "lgd_subdistrictcode"
    code_field := some "lgd_villagecode"
    state_field := some "State"
    district_field := some "district" }

/-- `AOI_LAYERS`: the AOI hierarchy registry.  There is no `block` entry. -/
def AOI_LAYERS : List (String × Layer) :=
  [("state", stateLayer), ("district", districtLayer), ("village", villageLayer)]

/-- Python's `AOI_LAYERS.get(key)` / `key in AOI_LAYERS`. -/
def aoiLayerGet (key : String) : Option Layer :=
  AOI_LAYERS.lookup key

/-- The `groundwater_pre_monsoon` indicator layer. -/
def gwPreMonsoonLayer : Layer :=
  { name := "groundwater_pre_monsoon"
    url := "https://livingatlas.esri.in/server1/rest/services/Water/Pre_Post_Monsoon_Water_Level_Depth/FeatureServer/1"
    fields := ["objectid", "state_", "district_name", "block_", "village_name",
               "lat", "long", "date_", "dtwl_"]
    name_field := some "district_name"
    parent_field := some "state_"
    state_field := some "state_"
    district_field := some "district_name"
    value_field := some "dtwl_" }

/-- The `groundwater_during_monsoon` indicator layer. -/
def gwDuringMonsoonLayer : Layer :=
  { name := "groundwater_during_monsoon"
    url := "https://livingatlas.esri.in/server1/rest/services/Water/Pre_Post_Monsoon_Water_Level_Depth/FeatureServer/2"
    fields := ["objectid", "State", "district_name", "block_", "village_name",
               "lat", "long", "date_", "wl_mbgl"]
    name_field := some "district_name"
    parent_field := some "state"
    state_field := some "State"
    district_field := some "district_name"
    value_field := some "wl_mbgl" }

/-- The `groundwater_post_monsoon` indicator layer. -/
def gwPostMonsoonLayer : Layer :=
  { name := "groundwater_post_monsoon"
    url := "https://livingatlas.esri.in/server1/rest/services/Water/Pre_Post_Monsoon_Water_Level_Depth/FeatureServer/3"
    fields := ["objectid", "State", "district_name", "block_", "village_name",
               "lat", "long", "date_", "wl_mbgl"]
    name_field := some "district_name"
    parent_field := some "state"
    state_field := some "State"
    district_field := some "district_name"
    value_field := some "wl_mbgl" }

/-- The `aquifer` indicator layer. -/
def aquiferLayer : Layer :=
  { name := "aquifer"
    url := "https://livingatlas.esri.in/server1/rest/services/Water/Major_Aquifers/MapServer/0"
    fields := ["objectid", "state_name", "new_code_14", "aquifer", "newcode43",
               "aquifer_0", "systems", "zone_m", "mbgl", "avg_mbgl", "yield_gw",
               "m3_per_day", "per_cm", "pa_order"]
    name_field := some "state_name"
    code_field := some "new_code_14"
    state_field := some "state_name"
    value_field := some "aquifer" }

/-- The `rural_facilities` indicator layer. -/
def ruralFacilitiesLayer : Layer :=
  { name := "rural_facilities"
    url := "https://livingatlas.esri.in/server1/rest/services/PMGSY/IN_PMGSY_RuralFacilities_2021/MapServer/0"
    fields := ["objectid", "facility_id", "facilityname", "facilitycat",
               "hab_id", "habname", "block_id", "block", "dist_id", "District",
               "state_id", "State", "geometry"]
    name_field := some "facilityname"
    state_field := some "State"
    district_field := some "District" }

/-- The `mgnrega_workers` indicator layer. -/
def mgnregaWorkersLayer : Layer :=
  { name := "mgnrega_workers"
    url := "https://livingatlas.esri.in/server1/rest/services/MGNREGA/IN_DT_CategoryWiseHHWorkers/MapServer/0"
    fields := ["objectid", "district_name", "state_name", "lgd_district_code",
               "census_code_2011", "number_of_jobcards_applied_for",
               "number_of_jobcards_issued", "registered_workers_sc",
               "registered_workers_st", "registered_workers_oth",
               "registered_workers_total", "registered_workers_women",
               "number_of_active_job_cards", "active_workers_sc",
               "active_workers_st", "active_workers_oth",
               "active_workers_total_workers", "active_workers_women",
               "shape", "st_area(shape)", "st_perimeter(shape)"]
    name_field := some "district_name"
    state_field := some "state_name"
    district_field := some "district_name" }

/-- `INDICATOR_LAYERS`: the indicator layer registry. -/
def INDICATOR_LAYERS : List (String × Layer) :=
  [("groundwater_pre_monsoon", gwPreMonsoonLayer),
   ("groundwater_during_monsoon", gwDuringMonsoonLayer),
   ("groundwater_post_monsoon", gwPostMonsoonLayer),
   ("aquifer", aquiferLayer),
   ("rural_facilities", ruralFacilitiesLayer),
   ("mgnrega_workers", mgnregaWorkersLayer)]

/-- Python's `INDICATOR_LAYERS.get(key)` / `key in INDICATOR_LAYERS`. -/
def indicatorLayerGet (key : String) : Option Layer :=
  INDICATOR_LAYERS.lookup key

/-!  ### Features and geometry (`app/geo.py`)  -/

/-- Esri JSON geometry as `_esri_to_geojson` distinguishes it:
a ring list (polygon), a path list (polyline), an x/y pair (point), or
anything else (already GeoJSON / unknown, passed through). -/
inductive EsriGeometry where
  | rings (rs : List (List (ℚ × ℚ)))
  | paths (ps : List (List (ℚ × ℚ)))
  | point (x y : ℚ)
  | passthrough
  deriving DecidableEq

/-- GeoJSON geometry as produced by `_esri_to_geojson`. -/
inductive GeoJSONGeom where
  | polygon (coords : List (List (ℚ × ℚ)))
  | lineString (coords : List (ℚ × ℚ))
  | multiLineString (coords : List (List (ℚ × ℚ)))
  | point (x y : ℚ)
  | passthrough
  deriving DecidableEq

/-- `_esri_to_geojson`: convert Esri JSON geometry to GeoJSON format. -/
def esri_to_geojson : EsriGeometry → GeoJSONGeom
  | EsriGeometry.rings rs => GeoJSONGeom.polygon rs
  | EsriGeometry.paths ps =>
    match ps with
    | [p] => GeoJSONGeom.lineString p
    | _ => GeoJSONGeom.multiLineString ps
  | EsriGeometry.point x y => GeoJSONGeom.point x y
  | EsriGeometry.passthrough => GeoJSONGeom.passthrough

/-- A feature record returned by a query: an attribute dictionary and an
optional geometry.  Attribute values are modelled as strings (the resolver
only compares, copies and stringifies them); a feature dict returned by the
service is assumed non-empty, so Python truthiness of a feature coincides
with its presence. -/
structure Feature where
  attrs : List (String × String)
  geometry : Option EsriGeometry := none
  deriving DecidableEq

/-- Python `feature["attributes"].get(key)`. -/
def attrGet (f : Feature) (key : String) : Option String :=
  f.attrs.lookup key

/-- `geometry_centroid`, parametrised by `shapeCentroid`, which models the
external shapely call `shape(geojson).centroid` returning the centroid as
`(x, y)` — or `none` when `shape` raises.  The code returns
`(centroid.y, centroid.x)`, i.e. `(lat, lon)`, and `None` when the feature
has no geometry or conversion fails. -/
def geometry_centroid (shapeCentroid : GeoJSONGeom → Option (ℚ × ℚ))
    (feature : Feature) : Option (ℚ × ℚ) :=
  match feature.geometry with
  | none => none
  | some g =>
    match shapeCentroid (esri_to_geojson g) with
    | none => none
    | some p => some (p.2, p.1)

/-!  ### Hierarchical AOI resolver (`app/indicators.py`)  -/

/-- A query backend: given a layer URL and a WHERE predicate, return the
feature list the service sends back, or `none` when the request raises (the
resolver catches any exception and treats the level as unresolved). -/
def QueryFn : Type := String → String → Option (List Feature)

/-- The resolution context (`Dict[str, Optional[str]]`): an insertion list,
where later bindings shadow earlier ones. -/
def Ctx : Type := List (String × Option String)

/-- Store `context[key] = value`. -/
def ctxSet (c : Ctx) (key : String) (value : Option String) : Ctx :=
  (key, value) :: c

/-- Whether `key` is present, and the value stored under it. -/
def ctxFind (c : Ctx) (key : String) : Option (Option String) :=
  List.lookup key c

/-- Python `context.get(key)`: `None` both when the key is missing and when
`None` is stored under it. -/
def ctxGet (c : Ctx) (key : String) : Option String :=
  (ctxFind c key).join

/-- Python `context.get(key, default)`: the stored value when the key is
present (even if `None`), otherwise the default. -/
def ctxGetD (c : Ctx) (key : String) (default : String) : Option String :=
  match ctxFind c key with
  | some v => v
  | none => some default

/-- Python `value.replace("'", "''")` (single quotes doubled). -/
def escapeQuotes (value : String) : String :=
  String.mk ((value.data.map (fun c => if c = sqc then [c, c] else [c])).flatten)

/-- `IndicatorService._eq_clause`: a case-insensitive SQL equality predicate
with the value's quotes escaped. -/
def eq_clause (field value : String) : String :=
  "UPPER(" ++ field ++ ") = UPPER(" ++ sqs ++ escapeQuotes value ++ sqs ++ ")"

/-- `IndicatorService._resolve_feature`: build the WHERE predicate for
`layer_key` from the supplied name and the context, query the layer, and
return the first feature — or `none` when the layer is unregistered, the
query raises, or no feature matches.  Also returns the list of
`(url, where)` queries actually issued (empty or a singleton). -/
def resolve_feature (q : QueryFn) (layer_key name : String) (context : Ctx) :
    Option Feature × List (String × String) :=
  match aoiLayerGet layer_key with
  | none => (none, [])
  | some layer =>
    let c1 : List String :=
      if name ≠ "" ∧ truthyStr layer.name_field then
        [eq_clause (layer.name_field.getD "") name]
      else []
    let c2 : List String :=
      if truthyStr layer.state_field ∧ layer_key ≠ "state" then
        let state_full := pyOrStr (ctxGet context "state_name_full") (ctxGet context "state_name")
        let state_abbrev := ctxGet context "state_name_abbrev"
        let state_value :=
          if truthyStr state_abbrev ∧ (state_abbrev.getD "").length = 2 then
            state_abbrev
          else state_full
        if truthyStr state_value then
          [eq_clause (layer.state_field.getD "") (state_value.getD "")]
        else []
      else []
    let district_name := ctxGet context "district_name"
    let c3 : List String :=
      if truthyStr layer.district_field ∧ truthyStr district_name ∧
          layer_key ≠ "state" ∧ layer_key ≠ "district" then
        [eq_clause (layer.district_field.getD "") (district_name.getD "")]
      else []
    let c4 : List String :=
      if truthyStr layer.parent_field then
        let parent_value := ctxGet context (layer.parent_field.getD "")
        if truthyStr parent_value then
          [eq_clause (layer.parent_field.getD "") (parent_value.getD "")]
        else []
      else []
    let clauses := c1 ++ c2 ++ c3 ++ c4
    let whereClause :=
      if clauses.isEmpty then "1=1" else String.intercalate " AND " clauses
    match q layer.url whereClause with
    | none => (none, [(layer.url, whereClause)])
    | some [] => (none, [(layer.url, whereClause)])
    | some (f :: _) => (some f, [(layer.url, whereClause)])

/-- `IndicatorService._update_context`: extract the canonical name, the code
and the parent link of a resolved feature into the context; for the state
level additionally store the full-name and abbreviation variants.  (The
callers only invoke this after the layer lookup succeeded, so the `none`
branch is unreachable.) -/
def update_context (layer_key : String) (feature : Feature)
    (fallback_name : String) (context : Ctx) : Ctx :=
  match aoiLayerGet layer_key with
  | none => context
  | some layer =>
    let name_value :=
      if truthyStr layer.name_field then attrGet feature (layer.name_field.getD "")
      else none
    let resolved_name := pyOrStr name_value (some fallback_name)
    let c0 := ctxSet context (layer_key ++ "_name") resolved_name
    let c1 :=
      if layer_key = "state" then
        let full0 := pyOrStr (attrGet feature "State_FSI") resolved_name
        let abbrev0 := attrGet feature "State_Name"
        let abbrev1 :=
          if truthyStr full0 ∧ ¬ truthyStr abbrev0 then
            get_state_abbreviation (full0.getD "")
          else abbrev0
        let full1 :=
          if truthyStr abbrev1 ∧ ¬ truthyStr full0 then
            get_state_full_name (abbrev1.getD "")
          else full0
        ctxSet (ctxSet (ctxSet c0 "state_name_full" full1)
          "state_name_abbrev" abbrev1) "state_name" full1
      else c0
    let c2 :=
      if truthyStr layer.code_field then
        match attrGet feature (layer.code_field.getD "") with
        | some v => ctxSet c1 (layer_key ++ "_code") (some v)
        | none => c1
      else c1
    if truthyStr layer.parent_field then
      match attrGet feature (layer.parent_field.getD "") with
      | some v => ctxSet c2 (layer.parent_field.getD "") (some v)
      | none => c2
    else c2

/-- Diagnostic note for an unresolved district. -/
def districtNotFoundNote (district : String) : String :=
  "District " ++ sqs ++ district ++ sqs ++
    " not found; using state boundary for calculations."

/-- Diagnostic note for an unconfigured district layer. -/
def districtNotConfiguredNote : String :=
  "District layer not configured; using state boundary."

/-- Diagnostic note for an unresolved block. -/
def blockNotFoundNote (block : String) : String :=
  "Block \"" ++ block ++ "\" not found; using higher-level boundary."

/-- Diagnostic note for the unconfigured block layer. -/
def blockNotConfiguredNote : String :=
  "Block layer not configured; skipping."

/-- Diagnostic note for an unresolved village. -/
def villageNotFoundNote (village : String) : String :=
  "Village \"" ++ village ++ "\" not found; using higher-level boundary."

/-- Diagnostic note for an unconfigured village layer. -/
def villageNotConfiguredNote : String :=
  "Village layer not configured; skipping."

/-- The note recording which level supplied the AOI geometry. -/
def geomLevelNote (level : String) : String :=
  "AOI geometry resolved at " ++ level ++ " level."

/-- Outcome of resolving one optional level (district / block / village) in
`resolve_aoi`: the resolved feature (if any), the updated context, the
diagnostic notes appended, and the queries issued. -/
structure LevelOutcome where
  feature : Option Feature
  ctx : Ctx
  notes : List String
  log : List (String × String)

/-- One optional-level step of `resolve_aoi`: skip silently when no name was
supplied; record the "not configured" note when the level has no registered
layer; otherwise resolve, updating the context on success and recording the
"not found" note on failure.  The three district/block/village blocks of the
source follow exactly this shape, differing only in their note texts. -/
def resolve_level (q : QueryFn) (layer_key name : String) (context : Ctx)
    (notFoundNote notConfiguredNote : String) : LevelOutcome :=
  if name = "" then ⟨none, context, [], []⟩
  else if (aoiLayerGet layer_key).isSome then
    match resolve_feature q layer_key name context with
    | (some f, log) => ⟨some f, update_context layer_key f name context, [], log⟩
    | (none, log) => ⟨none, context, [notFoundNote], log⟩
  else ⟨none, context, [notConfiguredNote], []⟩

/-- `IndicatorService._select_best_feature`: the first resolved feature in
the order village → block → district → state, together with its level key. -/
def select_best_feature (village block district state : Option Feature) :
    Option (Feature × String) :=
  match village with
  | some f => some (f, "village")
  | none =>
    match block with
    | some f => some (f, "block")
    | none =>
      match district with
      | some f => some (f, "district")
      | none =>
        match state with
        | some f => some (f, "state")
        | none => none

/-- The resolved area of interest (`model.AOI`).  The four labels are
`Option String` (a stored `None` would be rejected by pydantic at runtime;
the resolver in fact always stores non-empty strings). -/
structure AOI where
  state : Option String
  district : Option String
  block : Option String
  village : Option String
  centroid_lat : Option ℚ := none
  centroid_lon : Option ℚ := none
  source_layer : Option String := none
  area_sqkm : Option String := none
  census_code : Option String := none
  additional_attributes : List (String × String) := []

/-- The result of a successful `resolve_aoi`: the AOI plus the diagnostic
notes accumulated in `_last_resolution_notes`. -/
structure ResolveOutput where
  aoi : AOI
  notes : List String

/-- Error message for a blank state argument. -/
def stateRequiredMsg : String := "State is required to resolve an AOI."

/-- Error message for an unresolvable state. -/
def stateNotFoundMsg (state : String) : String :=
  "State " ++ sqs ++ state ++ sqs ++ " not found."

/-- Error message of `_select_best_feature` when nothing resolved. -/
def noFeatureMsg : String := "AOI resolution failed; no matching features found."

/-- Error message modelling the `KeyError` of `AOI_LAYERS[best_layer_key]`
for an unregistered winning key (unreachable in fact). -/
def keyErrorMsg (key : String) : String := "KeyError: " ++ key

/-- `IndicatorService.resolve_aoi`.  Optional arguments are modelled as
strings with `""` for Python `None` (the code treats them identically:
every use is a truthiness test or an `or "N/A"` fallback).  Returns the
outcome — `Except.error` for a raised exception — together with the list of
`(url, where)` queries issued. -/
def resolve_aoi (settings : Settings) (q : QueryFn)
    (shapeCentroid : GeoJSONGeom → Option (ℚ × ℚ))
    (state district block village : String) :
    Except String ResolveOutput × List (String × String) :=
  if state = "" then (Except.error stateRequiredMsg, [])
  else if settings.stub_mode then
    (Except.ok
      { aoi :=
          { state := some state
            district := some district
            block := some (if block = "" then "N/A" else block)
            village := some (if village = "" then "N/A" else village)
            centroid_lat := some (171234 / 10000 : ℚ)
            centroid_lon := some (785432 / 10000 : ℚ)
            source_layer := some "stub" }
        notes := [] }, [])
  else
    match resolve_feature q "state" state [] with
    | (none, log1) => (Except.error (stateNotFoundMsg state), log1)
    | (some state_feature, log1) =>
      let ctx1 := update_context "state" state_feature state []
      let dres := resolve_level q "district" district ctx1
        (districtNotFoundNote district) districtNotConfiguredNote
      let bres := resolve_level q "block" block dres.ctx
        (blockNotFoundNote block) blockNotConfiguredNote
      let vres := resolve_level q "village" village bres.ctx
        (villageNotFoundNote village) villageNotConfiguredNote
      let notes := dres.notes ++ bres.notes ++ vres.notes
      let log := log1 ++ dres.log ++ bres.log ++ vres.log
      let out : Except String ResolveOutput :=
        match select_best_feature vres.feature bres.feature dres.feature
            (some state_feature) with
        | none => Except.error noFeatureMsg
        | some (best, best_key) =>
          let notes2 :=
            if best_key ≠ "village" then notes ++ [geomLevelNote best_key]
            else notes
          let centroid := geometry_centroid shapeCentroid best
          let additional_attrs : List (String × String) :=
            if best_key = "state" then
              (match attrGet best "GA_sqkm" with
               | some v => [("geographic_area_sqkm", v)]
               | none => []) ++
              (match attrGet best "State_Cens" with
               | some v => [("state_census_code", v)]
               | none => [])
            else if best_key = "district" then
              match attrGet best "st_area_sh" with
              | some v => [("area_sqkm", v)]
              | none => []
            else []
          match aoiLayerGet best_key with
          | none => Except.error (keyErrorMsg best_key)
          | some bestLayer =>
            Except.ok
              { aoi :=
                  { state := ctxGetD vres.ctx "state_name" state
                    district := ctxGetD vres.ctx "district_name"
                      (if district = "" then "N/A" else district)
                    block := ctxGetD vres.ctx "block_name"
                      (if block = "" then "N/A" else block)
                    village := ctxGetD vres.ctx "village_name"
                      (if village = "" then "N/A" else village)
                    centroid_lat := centroid.map Prod.fst
                    centroid_lon := centroid.map Prod.snd
                    source_layer := some bestLayer.url
                    area_sqkm := additional_attrs.lookup "area_sqkm"
                    census_code := additional_attrs.lookup "state_census_code"
                    additional_attributes := additional_attrs }
                notes := notes2 }
      (out, log)

/-- Whether a resolution outcome is a raised exception. -/
def exceptIsError (e : Except String ResolveOutput) : Bool :=
  match e with
  | Except.error _ => true
  | Except.ok _ => false

/-- The notes of a successful resolution outcome (empty on error). -/
def notesOf (e : Except String ResolveOutput) : List String :=
  match e with
  | Except.error _ => []
  | Except.ok out => out.notes

/-- The empty AOI (used only to make projections total). -/
def emptyAOI : AOI :=
  { state := none, district := none, block := none, village := none }

/-- The AOI of a successful resolution outcome (`emptyAOI` on error). -/
def aoiOf (e : Except String ResolveOutput) : AOI :=
  match e with
  | Except.error _ => emptyAOI
  | Except.ok out => out.aoi

/-!  ### Indicator derivation (`app/indicators.py`)  -/

/-- Python `a or b` on optional numbers (`0` is falsy). -/
def pyOrQ (a b : Option ℚ) : Option ℚ :=
  if truthyQ a then a else b

/-- `model.GroundWater`. -/
structure GroundWater where
  annual_extraction_mcm : Option ℚ := none
  net_available_mcm : Option ℚ := none
  stage_of_development_pc : Option ℚ := none
  category : Option String := none
  district_pre2019_m : Option ℚ := none
  pre_post_delta_m : Option ℚ := none
  stressed : Option Bool := none

/-- The district-level administrative groundwater metrics extracted by
`_fetch_district_groundwater`. -/
structure DistrictGW where
  annual_extraction : Option ℚ := none
  net_available : Option ℚ := none
  stage_of_development : Option ℚ := none
  category : Option String := none

/-- The attribute-extraction part of `_fetch_district_groundwater` (lines
345–389): field aliasing with Python `or`, and the development-stage
category bands. -/
def district_groundwater_from_attrs (attrs : String → Option ℚ) : DistrictGW :=
  let annual_extraction := pyOrQ (attrs "Annual_Gro") (attrs "Annual_G00")
  let net_available := pyOrQ (attrs "Net_Ground") (attrs "Ground_Wat")
  let stage := attrs "Stage_of_d"
  { annual_extraction := annual_extraction
    net_available := net_available
    stage_of_development := stage
    category :=
      match stage with
      | none => none
      | some stage_val =>
        if 100 ≤ stage_val then some "Over-exploited"
        else if 90 ≤ stage_val then some "Critical"
        else if 70 ≤ stage_val then some "Semi-critical"
        else some "Safe" }

/-- The averaging loop of `_average_groundwater_layer`: collect the usable
per-feature values of the layer's value field (skipping missing ones) and
average them; no usable values yields `None`, never zero. -/
def average_layer_values (vals : List (Option ℚ)) : Option ℚ :=
  let values := vals.filterMap id
  if values.isEmpty then none else some (values.sum / values.length)

/-- The primary seasonal value of `_fetch_groundwater`: the first
non-`None` of post-, during-, pre-monsoon (in that preference order). -/
def gw_primary (pre during post : Option ℚ) : Option ℚ :=
  [post, during, pre].findSome? id

/-- The seasonal delta of `_fetch_groundwater`: the first of
`(post − pre, during − pre)` whose two operands are both present, rounded
to two decimals. -/
def gw_delta (pre during post : Option ℚ) : Option ℚ :=
  match post, pre with
  | some newer, some older => some (pyRound2 (newer - older))
  | _, _ =>
    match during, pre with
    | some newer, some older => some (pyRound2 (newer - older))
    | _, _ => none

/-- The derivation step of `_fetch_groundwater` (lines 199–224): primary
value, delta, stress flag (`primary >= threshold if primary else None` —
note the Python truthiness on `primary`), and the merge with the district
administrative metrics. -/
def fetch_groundwater_core (district_gw : DistrictGW)
    (pre during post : Option ℚ) (threshold : ℚ) : GroundWater :=
  let primary := gw_primary pre during post
  let delta := gw_delta pre during post
  let stressed : Option Bool :=
    if truthyQ primary then some (decide (threshold ≤ primary.getD 0)) else none
  let pre2019_value := primary
  { annual_extraction_mcm := district_gw.annual_extraction
    net_available_mcm := district_gw.net_available
    stage_of_development_pc := district_gw.stage_of_development
    category := district_gw.category
    district_pre2019_m :=
      if truthyQ pre2019_value then some (pyRound2 (pre2019_value.getD 0))
      else none
    pre_post_delta_m := delta
    stressed := stressed }

/-- `model.MGNREGAStats`. -/
structure MGNREGAStats where
  jobcards_applied : Option ℚ := none
  jobcards_issued : Option ℚ := none
  registered_workers_total : Option ℚ := none
  registered_workers_sc : Option ℚ := none
  registered_workers_st : Option ℚ := none
  registered_workers_women : Option ℚ := none
  active_job_cards : Option ℚ := none
  active_workers_total : Option ℚ := none
  active_workers_sc : Option ℚ := none
  active_workers_st : Option ℚ := none
  active_workers_women : Option ℚ := none
  jobcard_issuance_rate_pc : Option ℚ := none
  worker_activation_rate_pc : Option ℚ := none
  women_participation_pc : Option ℚ := none

/-- One derived MGNREGA rate: the shape
`if denom and denom > 0 and numer is not None:
  rate = round(numer / denom * 100, 2)`
shared by the three rate computations of `_fetch_mgnrega`. -/
def derived_rate (denom numer : Option ℚ) : Option ℚ :=
  if truthyQ denom ∧ 0 < denom.getD 0 ∧ numer.isSome then
    some (pyRound2 (numer.getD 0 / denom.getD 0 * 100))
  else none

/-- The attribute-extraction and rate-derivation part of `_fetch_mgnrega`
(lines 498–541), applied to the attributes of the first matching feature. -/
def mgnrega_from_attrs (attrs : String → Option ℚ) : MGNREGAStats :=
  let jobcards_applied := attrs "number_of_jobcards_applied_for"
  let jobcards_issued := attrs "number_of_jobcards_issued"
  let registered_total := attrs "registered_workers_total"
  let registered_sc := attrs "registered_workers_sc"
  let registered_st := attrs "registered_workers_st"
  let registered_women := attrs "registered_workers_women"
  let active_cards := attrs "number_of_active_job_cards"
  let active_total := attrs "active_workers_total_workers"
  let active_sc := attrs "active_workers_sc"
  let active_st := attrs "active_workers_st"
  let active_women := attrs "active_workers_women"
  { jobcards_applied := jobcards_applied
    jobcards_issued := jobcards_issued
    registered_workers_total := registered_total
    registered_workers_sc := registered_sc
    registered_workers_st := registered_st
    registered_workers_women := registered_women
    active_job_cards := active_cards
    active_workers_total := active_total
    active_workers_sc := active_sc
    active_workers_st := active_st
    active_workers_women := active_women
    jobcard_issuance_rate_pc := derived_rate jobcards_applied jobcards_issued
    worker_activation_rate_pc := derived_rate registered_total active_total
    women_participation_pc := derived_rate active_total active_women }

/-- `model.Aquifer`. -/
structure Aquifer where
  type : Option String := none
  code : Option String := none
  deriving DecidableEq

/-- `IndicatorService._fetch_aquifer`.  `qa` models the point-in-polygon
query (`client.query` with the centroid as an `esriGeometryPoint` and
spatial relation `within`): it maps the layer URL and the point `(x, y)` =
`(lon, lat)` to the result list, `none` when the request raises.  Returns
the aquifer and whether a query was issued at all.  The guard mirrors
`if not aoi.centroid_lat or not aoi.centroid_lon` — Python truthiness, so
a coordinate equal to `0.0` is treated like a missing one. -/
def fetch_aquifer (qa : String → ℚ → ℚ → Option (List Feature))
    (aoi : AOI) : Aquifer × Bool :=
  match indicatorLayerGet "aquifer" with
  | none => ({}, false)
  | some layer =>
    if ¬ truthyQ aoi.centroid_lat ∨ ¬ truthyQ aoi.centroid_lon then ({}, false)
    else
      match qa layer.url (aoi.centroid_lon.getD 0) (aoi.centroid_lat.getD 0) with
      | none => ({}, true)
      | some [] => ({}, true)
      | some (f :: _) =>
        ({ type := pyOrStr (attrGet f "aquifer") (pyOrStr (attrGet f "aquifers")
             (pyOrStr (attrGet f "aquifer_0") (attrGet f "systems")))
           code := pyOrStr (attrGet f "new_code_14") (attrGet f "newcode43") },
         true)

/-!  ### Concrete fixtures for witnesses and counterexamples  -/

/-- A concrete state feature, as the state boundary layer would return it
for Tripura. -/
def tripuraFeature : Feature :=
  { attrs := [("State_FSI", "Tripura"), ("State_Name", "TR"),
              ("State_Cens", "16"), ("GA_sqkm", "10486")]
    geometry := some (EsriGeometry.point (785 / 10) (236 / 10)) }

/-- A query backend on which only the state layer answers (with the Tripura
feature); every other layer request raises. -/
def qStateOnly : QueryFn := fun url _ =>
  if url = stateLayer.url then some [tripuraFeature] else none

/-- A trivial centroid backend: shapely returns the point itself for point
geometries and raises otherwise. -/
def scPoint : GeoJSONGeom → Option (ℚ × ℚ) := fun g =>
  match g with
  | GeoJSONGeom.point x y => some (x, y)
  | _ => none

/-- An AOI whose centroid sits exactly on the equator. -/
def aoiEquator : AOI :=
  { emptyAOI with centroid_lat := some 0, centroid_lon := some 78 }

/-!  ## Theorems  -/

/-- Helper: the pagination loop against an honest service, from any offset:
once the remaining record count is below the fuel, it returns the
accumulator followed by every remaining record, in
`max 1 ⌈remaining/pageSize⌉` round trips. -/
theorem queryPages_honest {α : Type} (feats : List α) (p : Nat) (hp : 0 < p) :
    ∀ (fuel offset : Nat) (acc : List α), feats.length - offset < fuel →
      queryPages (honestServer feats p) fuel offset acc =
        some (acc ++ feats.drop offset,
          max 1 ((feats.length - offset + p - 1) / p)) := by
  intro fuel
  induction fuel with
  | zero => intro offset acc h; omega
  | succ fuel ih =>
    intro offset acc h
    rw [queryPages]
    by_cases hcase : offset + p < feats.length
    · have hlen : ((feats.drop offset).take p).length = p := by
        simp [List.length_take, List.length_drop]; omega
      have hne : ((feats.drop offset).take p).isEmpty = false := by
        rcases hemp : (feats.drop offset).take p with _ | ⟨x, xs⟩
        · rw [hemp] at hlen; simp at hlen; omega
        · simp
      simp only [honestServer, hcase, hne]
      rw [hlen, ih (offset + p) (acc ++ (feats.drop offset).take p) (by omega)]
      have hjoin : acc ++ (feats.drop offset).take p ++ feats.drop (offset + p)
          = acc ++ feats.drop offset := by
        rw [List.append_assoc]
        congr 1
        have hdd : feats.drop (offset + p) = (feats.drop offset).drop p := by
          rw [List.drop_drop]
        rw [hdd, List.take_append_drop]
      rw [hjoin]
      have hm : p + 1 ≤ feats.length - offset := by omega
      have h1 : feats.length - (offset + p) + p - 1 = feats.length - offset - 1 := by
        omega
      have h2 : feats.length - offset + p - 1 = (feats.length - offset - 1) + p := by
        omega
      have h3 : 1 ≤ (feats.length - offset - 1) / p :=
        (Nat.one_le_div_iff hp).mpr (by omega)
      rw [h1, h2, Nat.add_div_right _ hp]
      have h4 : max 1 ((feats.length - offset - 1) / p)
          = (feats.length - offset - 1) / p := Nat.max_eq_right h3
      rw [h4]
      have h5 : max 1 ((feats.length - offset - 1) / p + 1)
          = (feats.length - offset - 1) / p + 1 := Nat.max_eq_right (by omega)
      rw [h5]
      simp
    · have htake : (feats.drop offset).take p = feats.drop offset :=
        List.take_of_length_le (by simp [List.length_drop]; omega)
      have hdivle : (feats.length - offset + p - 1) / p ≤ 1 := by
        have := (Nat.div_lt_iff_lt_mul hp).mpr
          (show feats.length - offset + p - 1 < 2 * p by omega)
        omega
      simp only [honestServer, hcase, htake]
      rw [Nat.max_eq_left hdivle]
      simp

/-- Helper: `ArcGISClient.query` against an honest service returns all
features in order, in `max 1 ⌈total/pageSize⌉` round trips. -/
theorem queryRun_honest {α : Type} (feats : List α) (p : Nat) (hp : 0 < p) :
    queryRun feats p = some (feats, max 1 ((feats.length + p - 1) / p)) := by
  unfold queryRun
  rw [queryPages_honest feats p hp (feats.length + 1) 0 [] (by omega)]
  simp

/-- Helper: after a successful empty page the loop stops immediately, even
when the service still reports truncation pending. -/
theorem queryPages_stops_on_empty {α : Type} (server : Nat → FeaturePage α)
    (fuel offset : Nat) (acc : List α) (h : (server offset).features = []) :
    queryPages server (fuel + 1) offset acc = some (acc, 1) := by
  rw [queryPages]
  simp [h]

/-- C2 counterexample: with zero total features the client still makes one
round trip, while the claimed bound `⌈0 / 2000⌉` allows zero round trips —
so the claim fails at total feature count 0. -/
theorem claim_C2_counterexample :
    queryRun ([] : List Nat) 2000 = some ([], 1)
    ∧ (([] : List Nat).length + 2000 - 1) / 2000 = 0
    ∧ ¬ (1 ≤ (([] : List Nat).length + 2000 - 1) / 2000) := by
  refine ⟨by decide, by decide, by decide⟩

/-- C2 (amended): for every total feature count the paginated query against
an honest service terminates within `max 1 ⌈total / page_size⌉` round trips
(one request is always issued, so zero features still cost one round trip),
returns the features in request order as the concatenation of the pages
received, and — for any service behaviour — stops immediately after a
successful empty page even when truncation is still reported. -/
theorem claim_C2 {α : Type} (feats : List α) (p : Nat) (hp : 0 < p) :
    queryRun feats p = some (feats, max 1 ((feats.length + p - 1) / p))
    ∧ ∀ (server : Nat → FeaturePage α) (fuel offset : Nat) (acc : List α),
        (server offset).features = [] →
        queryPages server (fuel + 1) offset acc = some (acc, 1) := by
  exact ⟨queryRun_honest feats p hp,
    fun server fuel offset acc h => queryPages_stops_on_empty server fuel offset acc h⟩

/-- C2 witness: five features with page size two are returned in order in
three round trips, and an empty truncated page stops the loop. -/
theorem claim_C2_witness :
    queryRun [10, 20, 30, 40, 50] 2 = some ([10, 20, 30, 40, 50], 3)
    ∧ queryPages (fun _ => FeaturePage.mk ([] : List Nat) true) 7 0 [1]
        = some ([1], 1) := by
  have h := claim_C2 [10, 20, 30, 40, 50] 2 (by decide)
  refine ⟨?_, h.2 (fun _ => FeaturePage.mk ([] : List Nat) true) 6 0 [1] rfl⟩
  have h1 := h.1
  rwa [show max 1 (([10, 20, 30, 40, 50].length + 2 - 1) / 2) = 3 by decide] at h1

/-- Helper: from attempt `a` on, the retry loop makes at most
`maxRetries + 1 - a + 1` HTTP attempts. -/
theorem requestGo_count_le :
    ∀ (n : Nat) (resp : Nat → HttpResponse) (mr a : Nat), mr + 1 - a ≤ n →
      (requestGo resp mr a).2.1 ≤ n + 1 := by
  intro n
  induction n with
  | zero =>
    intro resp mr a h
    rw [requestGo]
    split
    · rw [if_pos (by omega : mr < a)]
    · split
      · simp
      · split <;> simp
  | succ n ih =>
    intro resp mr a h
    rw [requestGo]
    split
    · split
      · simp
      · have hrec := ih resp mr (a + 1) (by omega)
        simpa using Nat.add_le_add_right hrec 1
    · split
      · simp
      · split <;> simp

/-- C3: every retry backoff delay for attempt `n ≥ 1` lies in
`[backoff_factor·2^(n-1), backoff_factor·2^(n-1)·1.5)` for every possible
jitter draw, and the retry loop makes at most `max_retries + 1` HTTP
attempts in total. -/
theorem claim_C3 (factor : ℚ) (n : Nat) (r : ℚ)
    (hf : 0 < factor) (_hn : 1 ≤ n) (hr0 : 0 ≤ r) (hr1 : r < 1) :
    (factor * 2 ^ (n - 1) ≤ sleep_delay factor n r
      ∧ sleep_delay factor n r < factor * 2 ^ (n - 1) * (3 / 2))
    ∧ ∀ (resp : Nat → HttpResponse) (mr : Nat),
        (requestRun resp mr).2.1 ≤ mr + 1 := by
  constructor
  · have hb : (0 : ℚ) < factor * 2 ^ (n - 1) := by positivity
    unfold sleep_delay
    constructor
    · have : (0 : ℚ) ≤ factor * 2 ^ (n - 1) / 2 * r :=
        mul_nonneg (by positivity) hr0
      linarith
    · have : factor * 2 ^ (n - 1) / 2 * r < factor * 2 ^ (n - 1) / 2 :=
        mul_lt_of_lt_one_right (by positivity) hr1
      linarith
  · intro resp mr
    have h := requestGo_count_le mr resp mr 1 (by omega)
    unfold requestRun
    omega

/-- C3 witness: attempt 2 with the default factor 0.6 and jitter draw 1/2,
and a concrete always-503 backend with 2 retries. -/
theorem claim_C3_witness :
    ((3 : ℚ) / 5 * 2 ^ (2 - 1) ≤ sleep_delay (3 / 5) 2 (1 / 2)
      ∧ sleep_delay (3 / 5) 2 (1 / 2) < 3 / 5 * 2 ^ (2 - 1) * (3 / 2))
    ∧ (requestRun (fun _ => HttpResponse.mk 503 false 0) 2).2.1 ≤ 3 := by
  have h := claim_C3 (3 / 5) 2 (1 / 2) (by norm_num) (by norm_num)
    (by norm_num) (by norm_num)
  exact ⟨h.1, h.2 (fun _ => HttpResponse.mk 503 false 0) 2⟩

/-- C4: a response with a successful HTTP status whose body embeds an
`"error"` payload makes the request fail with the distinguished
`ArcGISError` immediately on the attempt that received it — one attempt,
no backoff sleep — regardless of the remaining retry budget, and that
error kind is distinct from every transport error. -/
theorem claim_C4 (resp : Nat → HttpResponse) (mr a : Nat)
    (h1 : (resp a).status < 400) (h2 : (resp a).bodyHasError = true) :
    requestGo resp mr a = (ReqOutcome.serviceFailure, 1, [])
    ∧ ∀ s, ReqOutcome.serviceFailure ≠ ReqOutcome.httpFailure s := by
  constructor
  · have ht : transientStatus (resp a).status = false := by
      simp only [transientStatus, Bool.or_eq_false_iff, beq_eq_false_iff_ne,
        ne_eq]
      omega
    rw [requestGo]
    simp only [ht, Bool.false_eq_true, if_false]
    rw [if_neg (by omega), if_pos h2]
  · intro s h
    exact ReqOutcome.noConfusion h

/-- C4 witness: a 200 response with an embedded error payload fails as
`ArcGISError` on attempt 1 with no sleeps, despite 5 retries remaining. -/
theorem claim_C4_witness :
    requestGo (fun _ => HttpResponse.mk 200 true 7) 5 1
      = (ReqOutcome.serviceFailure, 1, []) :=
  (claim_C4 (fun _ => HttpResponse.mk 200 true 7) 5 1 (by decide) (by decide)).1

/-- Helper: `round(x, 2)` is the identity on integer-valued rationals. -/
theorem pyRound2_intCast (n : ℤ) : pyRound2 ((n : ℚ)) = (n : ℚ) := by
  unfold pyRound2 roundHalfToEven
  have h1 : ((n : ℚ) * 100) = ((n * 100 : ℤ) : ℚ) := by push_cast; ring
  rw [h1, Int.floor_intCast]
  simp only [sub_self]
  rw [if_pos (by norm_num : (0 : ℚ) < 1 / 2)]
  push_cast
  field_simp

/-- C6 counterexample: a primary seasonal value of `0.0` exists (e.g. the
average of two zero measurements), yet the stress flag is `None` — so the
flag is not `None` "if and only if no primary value exists", and it does
not equal the threshold comparison for the existing primary value `0.0`. -/
theorem claim_C6_counterexample :
    gw_primary none none (some 0) = some 0
    ∧ (fetch_groundwater_core {} none none (some 0) 10).stressed = none
    ∧ average_layer_values [some 0, some 0] = some 0 := by
  refine ⟨rfl, ?_, ?_⟩
  · simp [fetch_groundwater_core, gw_primary, truthyQ]
  · simp [average_layer_values]

/-- C6 (amended): the groundwater stress flag equals the comparison of the
primary seasonal value against the threshold whenever a primary value
exists *and is nonzero* (in particular 12.0 against 10.0 yields stressed =
true), and the flag is `None` exactly when the primary value is absent or
equal to `0.0` (Python truthiness of the primary value). -/
theorem claim_C6 (district_gw : DistrictGW) (pre during post : Option ℚ)
    (threshold : ℚ) :
    (∀ v, gw_primary pre during post = some v → v ≠ 0 →
      (fetch_groundwater_core district_gw pre during post threshold).stressed
        = some (decide (threshold ≤ v)))
    ∧ ((fetch_groundwater_core district_gw pre during post threshold).stressed
          = none ↔
        gw_primary pre during post = none ∨ gw_primary pre during post = some 0) := by
  constructor
  · intro v hv hvne
    simp [fetch_groundwater_core, hv, truthyQ, hvne]
  · rcases hp : gw_primary pre during post with _ | v
    · simp [fetch_groundwater_core, hp, truthyQ]
    · by_cases hv : v = 0
      · subst hv
        simp [fetch_groundwater_core, hp, truthyQ]
      · simp [fetch_groundwater_core, hp, truthyQ, hv]

/-- C6 witness: primary value 12.0 with the default threshold 10.0 yields
stressed = true, and the default threshold is indeed 10. -/
theorem claim_C6_witness :
    (fetch_groundwater_core {} none none (some 12)
        defaultSettings.gw_stress_threshold_m).stressed = some true
    ∧ defaultSettings.gw_stress_threshold_m = 10 := by
  have h := (claim_C6 {} none none (some 12)
    defaultSettings.gw_stress_threshold_m).1 12 rfl (by norm_num)
  refine ⟨?_, rfl⟩
  rw [h, show defaultSettings.gw_stress_threshold_m = (10 : ℚ) from rfl]
  norm_num

/-- C7: each derived MGNREGA rate is computed by the shared guarded-quotient
shape from its denominator/numerator attributes; a rate is present exactly
when the numerator is present and the denominator is present and strictly
positive, in which case it is the quotient times 100 rounded to two
decimals; a zero denominator yields `None`; and applied=100, issued=80
gives exactly 80. -/
theorem claim_C7 (attrs : String → Option ℚ) :
    ((mgnrega_from_attrs attrs).jobcard_issuance_rate_pc
        = derived_rate (attrs "number_of_jobcards_applied_for")
            (attrs "number_of_jobcards_issued")
      ∧ (mgnrega_from_attrs attrs).worker_activation_rate_pc
        = derived_rate (attrs "registered_workers_total")
            (attrs "active_workers_total_workers")
      ∧ (mgnrega_from_attrs attrs).women_participation_pc
        = derived_rate (attrs "active_workers_total_workers")
            (attrs "active_workers_women"))
    ∧ (∀ denom numer : Option ℚ,
        ((derived_rate denom numer).isSome ↔
          ∃ d, denom = some d ∧ 0 < d ∧ numer.isSome)
        ∧ (∀ d v, denom = some d → numer = some v → 0 < d →
            derived_rate denom numer = some (pyRound2 (v / d * 100)))
        ∧ derived_rate (some 0) numer = none)
    ∧ derived_rate (some 100) (some 80) = some 80 := by
  refine ⟨⟨rfl, rfl, rfl⟩, ?_, ?_⟩
  · intro denom numer
    refine ⟨?_, ?_, ?_⟩
    · rcases denom with _ | d
      · simp [derived_rate, truthyQ]
      · rcases numer with _ | v
        · simp [derived_rate, truthyQ]
        · by_cases hd : 0 < d
          · simp [derived_rate, truthyQ, hd, ne_of_gt hd]
          · simp only [derived_rate, truthyQ]
            rw [if_neg (by simp; intro _; exact le_of_not_lt hd)]
            simp [hd]
    · intro d v hd hv hdpos
      subst hd; subst hv
      simp [derived_rate, truthyQ, hdpos, ne_of_gt hdpos]
    · simp [derived_rate, truthyQ]
  · have hq : (80 : ℚ) / 100 * 100 = ((80 : ℤ) : ℚ) := by norm_num
    simp only [derived_rate, truthyQ]
    rw [if_pos (by norm_num)]
    rw [show (Option.some (80 : ℚ)).getD 0 / (Option.some (100 : ℚ)).getD 0 * 100
          = ((80 : ℤ) : ℚ) by simp]
    rw [pyRound2_intCast]
    norm_num

/-- C7 witness: the issuance rate at applied=100, issued=80 is 80.00, and a
zero denominator yields `None`, on a concrete attribute table. -/
theorem claim_C7_witness :
    derived_rate (some 100) (some 80) = some 80
    ∧ derived_rate (some 0) (some 80) = none := by
  have h := claim_C7 (fun _ => none)
  exact ⟨h.2.2, (h.2.1 (some 0) (some 80)).2.2⟩

/-- C10: the aquifer fetch returns the empty aquifer and issues no query
whenever the AOI centroid latitude or longitude is missing or exactly zero
(an equator or prime-meridian centroid is treated like a missing one). -/
theorem claim_C10 (qa : String → ℚ → ℚ → Option (List Feature)) (aoi : AOI)
    (h : aoi.centroid_lat = none ∨ aoi.centroid_lat = some 0
       ∨ aoi.centroid_lon = none ∨ aoi.centroid_lon = some 0) :
    fetch_aquifer qa aoi = ({}, false) := by
  have hl : indicatorLayerGet "aquifer" = some aquiferLayer := rfl
  rcases h with h | h | h | h <;> simp [fetch_aquifer, hl, truthyQ, h]

/-- C10 witness: a centroid lying exactly on the equator produces the empty
aquifer without any query being issued. -/
theorem claim_C10_witness :
    fetch_aquifer (fun _ _ _ => none) aoiEquator = ({}, false) :=
  claim_C10 (fun _ _ _ => none) aoiEquator (Or.inr (Or.inl rfl))

/-- Helper: the registry resolves the `state` key. -/
theorem aoiLayerGet_state : aoiLayerGet "state" = some stateLayer := rfl

/-- Helper: the registry resolves the `district` key. -/
theorem aoiLayerGet_district : aoiLayerGet "district" = some districtLayer := rfl

/-- Helper: the registry resolves the `village` key. -/
theorem aoiLayerGet_village : aoiLayerGet "village" = some villageLayer := rfl

/-- Helper: the registry has no `block` layer. -/
theorem aoiLayerGet_block : aoiLayerGet "block" = none := rfl

/-- Helper: a level whose name is blank is skipped without note or query. -/
theorem resolve_level_blank (q : QueryFn) (k : String) (ctx : Ctx)
    (n1 n2 : String) :
    resolve_level q k "" ctx n1 n2 = ⟨none, ctx, [], []⟩ := by
  simp [resolve_level]

/-- Helper: a requested block level only records the "not configured" note:
no query is issued and no feature resolves. -/
theorem resolve_level_block (q : QueryFn) (b : String) (ctx : Ctx)
    (n1 n2 : String) (hb : b ≠ "") :
    resolve_level q "block" b ctx n1 n2 = ⟨none, ctx, [n2], []⟩ := by
  simp [resolve_level, hb, aoiLayerGet_block]

/-- Helper: the block level never yields a feature, whatever the inputs. -/
theorem resolve_level_block_feature (q : QueryFn) (b : String) (ctx : Ctx)
    (n1 n2 : String) :
    (resolve_level q "block" b ctx n1 n2).feature = none := by
  by_cases hb : b = ""
  · rw [hb, resolve_level_blank]
  · rw [resolve_level_block q b ctx n1 n2 hb]

/-- Helper: the block level never changes the context, whatever the
inputs. -/
theorem resolve_level_block_ctx (q : QueryFn) (b : String) (ctx : Ctx)
    (n1 n2 : String) :
    (resolve_level q "block" b ctx n1 n2).ctx = ctx := by
  by_cases hb : b = ""
  · rw [hb, resolve_level_blank]
  · rw [resolve_level_block q b ctx n1 n2 hb]

/-- Helper: when every query against a level's layer raises or returns no
features, `_resolve_feature` yields no feature for that level. -/
theorem resolve_feature_none_of_queries (q : QueryFn) (k name : String)
    (ctx : Ctx) (layer : Layer) (hl : aoiLayerGet k = some layer)
    (hq : ∀ w, q layer.url w = none ∨ q layer.url w = some []) :
    (resolve_feature q k name ctx).1 = none := by
  unfold resolve_feature
  rw [hl]
  dsimp only
  split
  · rfl
  · rfl
  · rename_i f tail heq
    rcases hq _ with h | h <;> rw [h] at heq <;> cases heq

/-- Helper: an unresolved non-blank level records exactly the "not found"
note, leaves the context unchanged, and logs the query it issued. -/
theorem resolve_level_not_found (q : QueryFn) (k name : String) (ctx : Ctx)
    (n1 n2 : String) (layer : Layer) (hn : name ≠ "")
    (hl : aoiLayerGet k = some layer)
    (hq : (resolve_feature q k name ctx).1 = none) :
    resolve_level q k name ctx n1 n2
      = ⟨none, ctx, [n1], (resolve_feature q k name ctx).2⟩ := by
  unfold resolve_level
  rw [if_neg hn, if_pos (by rw [hl]; rfl)]
  rcases hr : resolve_feature q k name ctx with ⟨of, lg⟩
  rw [hr] at hq
  cases of
  · rfl
  · cases hq

/-- Helper: a resolved non-blank level updates the context and appends no
note. -/
theorem resolve_level_found (q : QueryFn) (k name : String) (ctx : Ctx)
    (n1 n2 : String) (layer : Layer) (f : Feature) (hn : name ≠ "")
    (hl : aoiLayerGet k = some layer)
    (hq : (resolve_feature q k name ctx).1 = some f) :
    resolve_level q k name ctx n1 n2
      = ⟨some f, update_context k f name ctx, [],
          (resolve_feature q k name ctx).2⟩ := by
  unfold resolve_level
  rw [if_neg hn, if_pos (by rw [hl]; rfl)]
  rcases hr : resolve_feature q k name ctx with ⟨of, lg⟩
  rw [hr] at hq
  cases of
  · cases hq
  · rename_i g
    cases hq
    rfl

/-- Helper: resolving the state level writes only the keys `state_name`,
`state_name_full`, `state_name_abbrev` and `state_code` into an empty
context; every other key remains absent. -/
theorem ctxFind_update_state (sf : Feature) (st : String) (k : String)
    (h1 : k ≠ "state_name") (h2 : k ≠ "state_name_full")
    (h3 : k ≠ "state_name_abbrev") (h4 : k ≠ "state_code") :
    ctxFind (update_context "state" sf st []) k = none := by
  unfold update_context
  rw [aoiLayerGet_state]
  dsimp only
  rcases hc : attrGet sf "State_Cens" with _ | cv <;>
    simp [ctxFind, ctxSet, List.lookup, stateLayer, truthyStr, hc,
      beq_eq_false_iff_ne.mpr h1, beq_eq_false_iff_ne.mpr h2,
      beq_eq_false_iff_ne.mpr h3, beq_eq_false_iff_ne.mpr h4]

/-- C1: with stub mode off, `resolve_aoi` raises a hard failure exactly when
the state argument is blank or the state level cannot be resolved to a
feature; every other input — including unresolved or unconfigured district,
block or village levels — still returns an AOI without raising, and (shown
here for an unresolved village level, the district and block level notes
being covered by the district-fallback and block-registry theorems) an
unresolved level appends its diagnostic note. -/
theorem claim_C1 (s : Settings) (q : QueryFn)
    (sc : GeoJSONGeom → Option (ℚ × ℚ)) (st d b v : String)
    (hstub : s.stub_mode = false) :
    (exceptIsError (resolve_aoi s q sc st d b v).1 = true ↔
      st = "" ∨ (resolve_feature q "state" st []).1 = none)
    ∧ (st ≠ "" → (resolve_feature q "state" st []).1 ≠ none → v ≠ "" →
        (∀ w, q villageLayer.url w = none ∨ q villageLayer.url w = some []) →
        villageNotFoundNote v ∈ notesOf (resolve_aoi s q sc st d b v).1) := by
  constructor
  · by_cases hst : st = ""
    · subst hst
      simp [resolve_aoi, exceptIsError]
    · unfold resolve_aoi
      rw [if_neg hst]
      simp only [hstub, Bool.false_eq_true, if_false]
      rcases hsf : resolve_feature q "state" st [] with ⟨of, lg⟩
      rcases of with _ | sf
      · simp [exceptIsError, hsf, hst]
      · dsimp only
        set dres := resolve_level q "district" d
          (update_context "state" sf st [])
          (districtNotFoundNote d) districtNotConfiguredNote with hdres
        set bres := resolve_level q "block" b dres.ctx
          (blockNotFoundNote b) blockNotConfiguredNote with hbres
        set vres := resolve_level q "village" v bres.ctx
          (villageNotFoundNote v) villageNotConfiguredNote with hvres
        have hbf : bres.feature = none := by
          rw [hbres]
          exact resolve_level_block_feature q b dres.ctx
            (blockNotFoundNote b) blockNotConfiguredNote
        rcases hfv : vres.feature with _ | vf <;>
          rcases hfd : dres.feature with _ | df <;>
            simp [select_best_feature, exceptIsError, hsf, hst, hbf,
              aoiLayerGet_state, aoiLayerGet_district, aoiLayerGet_village]
  · intro hst hsome hv hvq
    unfold resolve_aoi
    rw [if_neg hst]
    simp only [hstub, Bool.false_eq_true, if_false]
    rcases hsf : resolve_feature q "state" st [] with ⟨of, lg⟩
    rw [hsf] at hsome
    rcases of with _ | sf
    · simp at hsome
    · dsimp only
      set dres := resolve_level q "district" d
        (update_context "state" sf st [])
        (districtNotFoundNote d) districtNotConfiguredNote with hdres
      set bres := resolve_level q "block" b dres.ctx
        (blockNotFoundNote b) blockNotConfiguredNote with hbres
      have hvrf : (resolve_feature q "village" v bres.ctx).1 = none :=
        resolve_feature_none_of_queries q "village" v bres.ctx villageLayer
          aoiLayerGet_village hvq
      rw [resolve_level_not_found q "village" v bres.ctx
        (villageNotFoundNote v) villageNotConfiguredNote villageLayer hv
        aoiLayerGet_village hvrf]
      dsimp only
      have hbf : bres.feature = none := by
        rw [hbres]
        exact resolve_level_block_feature q b dres.ctx
          (blockNotFoundNote b) blockNotConfiguredNote
      rw [hbf]
      rcases hfd : dres.feature with _ | df <;>
        dsimp only [select_best_feature] <;>
          [rw [aoiLayerGet_state]; rw [aoiLayerGet_district]] <;>
            simp [notesOf]

/-- C1 witness: a state-only request against a backend that resolves the
state returns without raising, and an unresolved village level appends its
note while the run still succeeds. -/
theorem claim_C1_witness :
    exceptIsError (resolve_aoi defaultSettings qStateOnly scPoint
      "Tripura" "" "" "").1 = false
    ∧ villageNotFoundNote "Kanchanpur" ∈ notesOf (resolve_aoi defaultSettings
        qStateOnly scPoint "Tripura" "" "" "Kanchanpur").1 := by
  have h := claim_C1 defaultSettings qStateOnly scPoint "Tripura" "" "" "" rfl
  have hr : ¬("Tripura" = ""
      ∨ (resolve_feature qStateOnly "state" "Tripura" []).1 = none) := by
    decide
  constructor
  · rcases hcase : exceptIsError (resolve_aoi defaultSettings qStateOnly
        scPoint "Tripura" "" "" "").1
    · rfl
    · exact absurd (h.1.mp hcase) hr
  · exact (claim_C1 defaultSettings qStateOnly scPoint "Tripura" "" ""
      "Kanchanpur" rfl).2 (by decide) (by decide) (by decide)
      (fun w => Or.inl (by
        simp only [qStateOnly]
        rw [if_neg (by decide)]))

/-- C5: when the state resolves but every district query raises or returns
no feature, and block and village are blank or unresolved (the block level
is arbitrary — it can never resolve since no block layer is registered —
and the village is either blank or its every query raises or returns no
feature), resolution succeeds, the AOI carries the caller-supplied district
string as its district label, its geometry source is the state layer's URL,
and the notes record the district fallback. -/
theorem claim_C5 (s : Settings) (q : QueryFn)
    (sc : GeoJSONGeom → Option (ℚ × ℚ)) (st d b v : String) (sf : Feature)
    (hstub : s.stub_mode = false) (hst : st ≠ "") (hd : d ≠ "")
    (hstate : (resolve_feature q "state" st []).1 = some sf)
    (hdq : ∀ w, q districtLayer.url w = none ∨ q districtLayer.url w = some [])
    (hv : v = "" ∨
      ∀ w, q villageLayer.url w = none ∨ q villageLayer.url w = some []) :
    exceptIsError (resolve_aoi s q sc st d b v).1 = false
    ∧ (aoiOf (resolve_aoi s q sc st d b v).1).district = some d
    ∧ (aoiOf (resolve_aoi s q sc st d b v).1).source_layer
        = some stateLayer.url
    ∧ districtNotFoundNote d ∈ notesOf (resolve_aoi s q sc st d b v).1 := by
  unfold resolve_aoi
  rw [if_neg hst]
  simp only [hstub, Bool.false_eq_true, if_false]
  rcases hp : resolve_feature q "state" st [] with ⟨of, lg2⟩
  rw [hp] at hstate
  simp only at hstate
  subst hstate
  dsimp only
  have hdrf : (resolve_feature q "district" d
      (update_context "state" sf st [])).1 = none :=
    resolve_feature_none_of_queries q "district" d _ districtLayer
      aoiLayerGet_district hdq
  rw [resolve_level_not_found q "district" d (update_context "state" sf st [])
    (districtNotFoundNote d) districtNotConfiguredNote districtLayer hd
    aoiLayerGet_district hdrf]
  dsimp only
  set bres := resolve_level q "block" b (update_context "state" sf st [])
    (blockNotFoundNote b) blockNotConfiguredNote with hbres
  have hbf : bres.feature = none := by
    rw [hbres]
    exact resolve_level_block_feature q b (update_context "state" sf st [])
      (blockNotFoundNote b) blockNotConfiguredNote
  have hbc : bres.ctx = update_context "state" sf st [] := by
    rw [hbres]
    exact resolve_level_block_ctx q b (update_context "state" sf st [])
      (blockNotFoundNote b) blockNotConfiguredNote
  set vres := resolve_level q "village" v bres.ctx
    (villageNotFoundNote v) villageNotConfiguredNote with hvres
  have hvfc : vres.feature = none ∧ vres.ctx = bres.ctx := by
    rcases hv with hvb | hvq
    · rw [hvres, hvb, resolve_level_blank]
      exact ⟨rfl, rfl⟩
    · by_cases hvb : v = ""
      · rw [hvres, hvb, resolve_level_blank]
        exact ⟨rfl, rfl⟩
      · have hvrf : (resolve_feature q "village" v bres.ctx).1 = none :=
          resolve_feature_none_of_queries q "village" v bres.ctx villageLayer
            aoiLayerGet_village hvq
        rw [hvres, resolve_level_not_found q "village" v bres.ctx
          (villageNotFoundNote v) villageNotConfiguredNote villageLayer hvb
          aoiLayerGet_village hvrf]
        exact ⟨rfl, rfl⟩
  rw [hvfc.1, hbf]
  dsimp only [select_best_feature]
  rw [aoiLayerGet_state]
  have hfind : ctxFind (update_context "state" sf st []) "district_name"
      = none :=
    ctxFind_update_state sf st "district_name" (by decide) (by decide)
      (by decide) (by decide)
  rw [hvfc.2, hbc]
  simp [exceptIsError, aoiOf, notesOf, ctxGetD, hfind, hd]

/-- C5 witness: resolving Tripura / Dhalai with the district and village
layers raising and a non-blank block name yields district = "Dhalai",
state-layer geometry, and the fallback note. -/
theorem claim_C5_witness :
    exceptIsError (resolve_aoi defaultSettings qStateOnly scPoint
      "Tripura" "Dhalai" "Ambassa" "Kanchanpur").1 = false
    ∧ (aoiOf (resolve_aoi defaultSettings qStateOnly scPoint
        "Tripura" "Dhalai" "Ambassa" "Kanchanpur").1).district = some "Dhalai"
    ∧ (aoiOf (resolve_aoi defaultSettings qStateOnly scPoint
        "Tripura" "Dhalai" "Ambassa" "Kanchanpur").1).source_layer
        = some stateLayer.url
    ∧ districtNotFoundNote "Dhalai" ∈ notesOf (resolve_aoi defaultSettings
        qStateOnly scPoint "Tripura" "Dhalai" "Ambassa" "Kanchanpur").1 :=
  claim_C5 defaultSettings qStateOnly scPoint "Tripura" "Dhalai" "Ambassa"
    "Kanchanpur" tripuraFeature rfl (by decide) (by decide) rfl
    (fun w => Or.inl (by
      simp only [qStateOnly]
      rw [if_neg (by decide)]))
    (Or.inr (fun w => Or.inl (by
      simp only [qStateOnly]
      rw [if_neg (by decide)])))

/-- C8 counterexample: a request supplying only a state, which the state
layer resolves, nevertheless records "AOI geometry resolved at state
level." — the note is keyed to the winning level not being `village`, not
to it differing from the most specific requested level. -/
theorem claim_C8_counterexample :
    exceptIsError (resolve_aoi defaultSettings qStateOnly scPoint
      "Tripura" "" "" "").1 = false
    ∧ geomLevelNote "state" ∈ notesOf (resolve_aoi defaultSettings qStateOnly
        scPoint "Tripura" "" "" "").1 := by
  refine ⟨by decide, by decide⟩

/-- C8 (amended): for every successful resolution — whatever levels the
caller requested — the note naming the level that supplied the geometry is
recorded whenever that level is not the village level: if the geometry is
sourced from the state layer the state-level note is present, and if it is
sourced from the district layer the district-level note is present. -/
theorem claim_C8 (s : Settings) (q : QueryFn)
    (sc : GeoJSONGeom → Option (ℚ × ℚ)) (st d b v : String)
    (hstub : s.stub_mode = false)
    (hok : exceptIsError (resolve_aoi s q sc st d b v).1 = false) :
    ((aoiOf (resolve_aoi s q sc st d b v).1).source_layer
        = some stateLayer.url →
      geomLevelNote "state" ∈ notesOf (resolve_aoi s q sc st d b v).1)
    ∧ ((aoiOf (resolve_aoi s q sc st d b v).1).source_layer
        = some districtLayer.url →
      geomLevelNote "district" ∈ notesOf (resolve_aoi s q sc st d b v).1) := by
  by_cases hst : st = ""
  · rw [hst] at hok
    simp [resolve_aoi, exceptIsError] at hok
  · unfold resolve_aoi at hok ⊢
    rw [if_neg hst] at hok ⊢
    simp only [hstub, Bool.false_eq_true, if_false] at hok ⊢
    rcases hp : resolve_feature q "state" st [] with ⟨of, lg⟩
    rw [hp] at hok
    rcases of with _ | sf
    · simp [exceptIsError] at hok
    · dsimp only at hok ⊢
      set dres := resolve_level q "district" d (update_context "state" sf st [])
        (districtNotFoundNote d) districtNotConfiguredNote with hdres
      set bres := resolve_level q "block" b dres.ctx
        (blockNotFoundNote b) blockNotConfiguredNote with hbres
      set vres := resolve_level q "village" v bres.ctx
        (villageNotFoundNote v) villageNotConfiguredNote with hvres
      have hbf : bres.feature = none := by
        rw [hbres]
        exact resolve_level_block_feature q b dres.ctx
          (blockNotFoundNote b) blockNotConfiguredNote
      rw [hbf]
      rcases hfv : vres.feature with _ | vf <;>
        rcases hfd : dres.feature with _ | df <;>
          dsimp only [select_best_feature]
      · rw [aoiLayerGet_state]
        have hne : stateLayer.url ≠ districtLayer.url := by decide
        simp [aoiOf, notesOf, hne]
      · rw [aoiLayerGet_district]
        have hne : districtLayer.url ≠ stateLayer.url := by decide
        simp [aoiOf, notesOf, hne]
      · rw [aoiLayerGet_village]
        have hne1 : villageLayer.url ≠ stateLayer.url := by decide
        have hne2 : villageLayer.url ≠ districtLayer.url := by decide
        simp [aoiOf, notesOf, hne1, hne2]
      · rw [aoiLayerGet_village]
        have hne1 : villageLayer.url ≠ stateLayer.url := by decide
        have hne2 : villageLayer.url ≠ districtLayer.url := by decide
        simp [aoiOf, notesOf, hne1, hne2]

/-- C8 witness: a state-only resolved request sources its geometry from the
state layer and records the state-level geometry note. -/
theorem claim_C8_witness :
    geomLevelNote "state" ∈ notesOf (resolve_aoi defaultSettings qStateOnly
      scPoint "Tripura" "" "" "").1 :=
  (claim_C8 defaultSettings qStateOnly scPoint "Tripura" "" "" "" rfl
    (by decide)).1 (by decide)

/-- Helper: every query issued by `_resolve_feature` for a level targets
that level's registered layer URL. -/
theorem resolve_feature_log_url (q : QueryFn) (k name : String) (ctx : Ctx)
    (p : String × String) (hp : p ∈ (resolve_feature q k name ctx).2) :
    ∃ layer, aoiLayerGet k = some layer ∧ p.1 = layer.url := by
  unfold resolve_feature at hp
  rcases hl : aoiLayerGet k with _ | layer
  · rw [hl] at hp
    simp at hp
  · rw [hl] at hp
    dsimp only at hp
    refine ⟨layer, rfl, ?_⟩
    split at hp <;>
    · rw [List.mem_singleton] at hp
      rw [hp]

/-- Helper: every query issued when resolving one optional level targets
that level's registered layer URL. -/
theorem resolve_level_log_url (q : QueryFn) (k name : String) (ctx : Ctx)
    (n1 n2 : String) (p : String × String)
    (hp : p ∈ (resolve_level q k name ctx n1 n2).log) :
    ∃ layer, aoiLayerGet k = some layer ∧ p.1 = layer.url := by
  unfold resolve_level at hp
  by_cases hn : name = ""
  · simp [hn] at hp
  · rw [if_neg hn] at hp
    by_cases hl : (aoiLayerGet k).isSome
    · rw [if_pos hl] at hp
      rcases hr : resolve_feature q k name ctx with ⟨of, lg⟩
      rw [hr] at hp
      apply resolve_feature_log_url q k name ctx p
      rw [hr]
      cases of <;> dsimp only at hp <;> exact hp
    · rw [if_neg hl] at hp
      simp at hp

/-- C9: the AOI layer registry holds exactly the state, district and
village layers — no block layer — and for every resolution with a
non-blank block name, every query issued targets one of those three layer
URLs (so no block query is ever issued), and a successful resolution
records the "Block layer not configured; skipping." note and sources its
geometry from one of the three registered layers, never a block layer. -/
theorem claim_C9 :
    (AOI_LAYERS.map Prod.fst = ["state", "district", "village"]
      ∧ aoiLayerGet "block" = none)
    ∧ ∀ (s : Settings) (q : QueryFn) (sc : GeoJSONGeom → Option (ℚ × ℚ))
        (st d b v : String), s.stub_mode = false → b ≠ "" →
        (∀ p ∈ (resolve_aoi s q sc st d b v).2,
            p.1 = stateLayer.url ∨ p.1 = districtLayer.url
              ∨ p.1 = villageLayer.url)
        ∧ (exceptIsError (resolve_aoi s q sc st d b v).1 = false →
            blockNotConfiguredNote ∈ notesOf (resolve_aoi s q sc st d b v).1
            ∧ ((aoiOf (resolve_aoi s q sc st d b v).1).source_layer
                  = some stateLayer.url
               ∨ (aoiOf (resolve_aoi s q sc st d b v).1).source_layer
                  = some districtLayer.url
               ∨ (aoiOf (resolve_aoi s q sc st d b v).1).source_layer
                  = some villageLayer.url)) := by
  refine ⟨⟨rfl, rfl⟩, ?_⟩
  intro s q sc st d b v hstub hb
  by_cases hst : st = ""
  · constructor
    · intro p hpp
      simp [resolve_aoi, hst] at hpp
    · intro hok
      rw [hst] at hok
      simp [resolve_aoi, exceptIsError] at hok
  · unfold resolve_aoi
    rw [if_neg hst]
    simp only [hstub, Bool.false_eq_true, if_false]
    rcases hp : resolve_feature q "state" st [] with ⟨of, lg⟩
    have hlg : ∀ p ∈ lg, p.1 = stateLayer.url := by
      intro p hpp
      have hfl := resolve_feature_log_url q "state" st [] p
        (by rw [hp]; exact hpp)
      rcases hfl with ⟨layer, hl, hu⟩
      rw [aoiLayerGet_state] at hl
      cases hl
      exact hu
    rcases of with _ | sf
    · constructor
      · intro p hpp
        exact Or.inl (hlg p hpp)
      · intro hok
        simp [exceptIsError] at hok
    · dsimp only
      set dres := resolve_level q "district" d (update_context "state" sf st [])
        (districtNotFoundNote d) districtNotConfiguredNote with hdres
      rw [resolve_level_block q b dres.ctx
        (blockNotFoundNote b) blockNotConfiguredNote hb]
      dsimp only
      set vres := resolve_level q "village" v dres.ctx
        (villageNotFoundNote v) villageNotConfiguredNote with hvres
      constructor
      · intro p hpp
        rw [List.append_nil] at hpp
        rcases List.mem_append.mp hpp with hpp2 | hppv
        · rcases List.mem_append.mp hpp2 with hpps | hppd
          · exact Or.inl (hlg p hpps)
          · have hfl := resolve_level_log_url q "district" d
              (update_context "state" sf st []) (districtNotFoundNote d)
              districtNotConfiguredNote p (hdres ▸ hppd)
            rcases hfl with ⟨layer, hl, hu⟩
            rw [aoiLayerGet_district] at hl
            cases hl
            exact Or.inr (Or.inl hu)
        · have hfl := resolve_level_log_url q "village" v dres.ctx
            (villageNotFoundNote v) villageNotConfiguredNote p (hvres ▸ hppv)
          rcases hfl with ⟨layer, hl, hu⟩
          rw [aoiLayerGet_village] at hl
          cases hl
          exact Or.inr (Or.inr hu)
      · intro hok
        rcases hfv : vres.feature with _ | vf <;>
          rcases hfd : dres.feature with _ | df <;>
            dsimp only [select_best_feature] <;>
              [rw [aoiLayerGet_state]; rw [aoiLayerGet_district];
               rw [aoiLayerGet_village]; rw [aoiLayerGet_village]] <;>
                refine ⟨by simp [notesOf], ?_⟩
        · exact Or.inl rfl
        · exact Or.inr (Or.inl rfl)
        · exact Or.inr (Or.inr rfl)
        · exact Or.inr (Or.inr rfl)

/-- C9 witness: a request with a non-blank block name records the
block-not-configured note, succeeds, sources its geometry from the state
layer URL, and its single issued query targets the state layer. -/
theorem claim_C9_witness :
    blockNotConfiguredNote ∈ notesOf (resolve_aoi defaultSettings qStateOnly
      scPoint "Tripura" "" "Ambassa" "").1
    ∧ ((aoiOf (resolve_aoi defaultSettings qStateOnly scPoint
          "Tripura" "" "Ambassa" "").1).source_layer = some stateLayer.url
       ∨ (aoiOf (resolve_aoi defaultSettings qStateOnly scPoint
            "Tripura" "" "Ambassa" "").1).source_layer = some districtLayer.url
       ∨ (aoiOf (resolve_aoi defaultSettings qStateOnly scPoint
            "Tripura" "" "Ambassa" "").1).source_layer
           = some villageLayer.url) :=
  (claim_C9.2 defaultSettings qStateOnly scPoint "Tripura" "" "Ambassa" ""
    rfl (by decide)).2 (by decide)
